import Mathlib

/-!
Shallow embedding of `src/index.js` of `create-discord-bot`, an interactive
project scaffolder.  The program prompts for an application name (and, on
first creation, a bot token), then either updates an existing target
directory or creates a fresh one from a bundled template, and finally runs
a sequence of side-effecting steps through a small step runner that honours
a `--dry-run` flag.

The embedding models:
  * JSON values and the `JSON.stringify(value, null, 2)` serializer used to
    rewrite the manifest;
  * the filesystem as an association list from paths (segment lists) to
    file contents, plus a list of directories;
  * the mutable process state (`World`): filesystem, console output, the
    current working directory and two instrumentation flags recording
    whether the installer subprocess and the identity lookup were invoked;
  * each step closure of the source as a function `World → World × Option
    String`, the `Option String` being the thrown error, if any;
  * the step runner `steps.forEach` and the whole `.then` body, with the
    top-level `.catch(console.error)` semantics: a rejection is handled and
    printed, after which the Node process exits with status 0 (only the
    success path calls `process.exit(0)` explicitly).
External collaborators (the prompts library loop, the npm-name validator
verdicts, the network lookup outcome, the installer exit status) enter as
oracle parameters; the code of the validation callback, of every step
action, and of `getApplicationId` is translated from the source.
-/

namespace CreateDiscordBot

/-- JSON values, as produced by `JSON.parse` and consumed by
`JSON.stringify`.  Object fields are kept in insertion order, mirroring the
key order of a JavaScript object; keys are unique in any object produced by
`JSON.parse`. -/
inductive Json where
  | null
  | bool (b : Bool)
  | num (n : Int)
  | str (s : String)
  | arr (items : List Json)
  | obj (fields : List (String × Json))

/-- Escape one character as inside a JSON string literal. -/
def escapeChar (c : Char) : String :=
  if c = '"' then "\\\""
  else if c = '\\' then "\\\\"
  else if c = '\n' then "\\n"
  else if c = '\r' then "\\r"
  else if c = '\t' then "\\t"
  else String.singleton c

/-- Quote a string as a JSON string literal. -/
def jsonQuote (s : String) : String :=
  "\"" ++ String.join (s.data.map escapeChar) ++ "\""

/-- Indentation produced by `JSON.stringify(value, null, 2)` at a given
nesting depth: two spaces per level. -/
def jsonPad (depth : Nat) : String :=
  String.mk (List.replicate (2 * depth) ' ')

mutual

/-- Embedding of `JSON.stringify(v, null, 2)`, rendering `v` at nesting
depth `depth`: objects and arrays are laid out one entry per line, indented
by two spaces per level, with `": "` between a key and its value. -/
def stringifyAt (depth : Nat) : Json → String
  | .null => "null"
  | .bool b => if b then "true" else "false"
  | .num n => toString n
  | .str s => jsonQuote s
  | .arr [] => "[]"
  | .arr (x :: xs) =>
      "[\n" ++ stringifyItems (depth + 1) x xs ++ "\n" ++ jsonPad depth ++ "]"
  | .obj [] => "\x7b\x7d"
  | .obj (f :: fs) =>
      "\x7b\n" ++ stringifyFields (depth + 1) f fs ++ "\n" ++ jsonPad depth ++ "\x7d"
termination_by j => sizeOf j

/-- Render a nonempty run of array items, separated by `",\n"`. -/
def stringifyItems (depth : Nat) (x : Json) (xs : List Json) : String :=
  match xs with
  | [] => jsonPad depth ++ stringifyAt depth x
  | y :: ys => jsonPad depth ++ stringifyAt depth x ++ ",\n" ++ stringifyItems depth y ys
termination_by sizeOf x + sizeOf xs

/-- Render a nonempty run of object fields, separated by `",\n"`. -/
def stringifyFields (depth : Nat) (f : String × Json) (fs : List (String × Json)) : String :=
  match f, fs with
  | (k, v), [] => jsonPad depth ++ jsonQuote k ++ ": " ++ stringifyAt depth v
  | (k, v), g :: gs =>
      jsonPad depth ++ jsonQuote k ++ ": " ++ stringifyAt depth v ++ ",\n" ++
        stringifyFields depth g gs
termination_by sizeOf f + sizeOf fs

end

mutual

/-- JavaScript string conversion of a value, as a template literal performs
it: strings verbatim, numbers in decimal, `null` as `"null"`, plain objects
as `"[object Object]"`, arrays as their elements joined by commas. -/
def Json.jsToString : Json → String
  | .null => "null"
  | .bool b => if b then "true" else "false"
  | .num n => toString n
  | .str s => s
  | .obj _ => "[object Object]"
  | .arr xs => jsArrToString xs

/-- JavaScript `Array.prototype.toString`: elements joined by `","`, with
`null` elements rendered as the empty string. -/
def jsArrToString : List Json → String
  | [] => ""
  | [x] => jsElemToString x
  | x :: y :: ys => jsElemToString x ++ "," ++ jsArrToString (y :: ys)
termination_by xs => sizeOf xs

/-- String conversion of one array element inside `Array.prototype.toString`. -/
def jsElemToString : Json → String
  | .null => ""
  | .bool b => if b then "true" else "false"
  | .num n => toString n
  | .str s => s
  | .obj _ => "[object Object]"
  | .arr xs => jsArrToString xs
termination_by j => sizeOf j

end

/-- JavaScript truthiness of a JSON value. -/
def Json.truthy : Json → Bool
  | .null => false
  | .bool b => b
  | .num n => decide (n ≠ 0)
  | .str s => decide (s ≠ "")
  | .arr _ => true
  | .obj _ => true

/-- Property access `o.k` on a parsed JSON object: the first field named
`k`, if any (objects produced by `JSON.parse` have unique keys). -/
def lookupField : List (String × Json) → String → Option Json
  | [], _ => none
  | f :: rest, k => if f.1 = k then some f.2 else lookupField rest k

/-- Effect of `{ ...fields, k: v }` on the field list of a JavaScript
object: when `k` is already present its value is replaced in place, keeping
the original key position; otherwise the pair is appended at the end. -/
def spreadSet : List (String × Json) → String → Json → List (String × Json)
  | [], k, v => [(k, v)]
  | f :: rest, k, v => if f.1 = k then (k, v) :: rest else f :: spreadSet rest k v

/-- A filesystem path, modelled as its list of segments (the string paths
of the source, split at the separators `path.join` and `path.resolve`
insert). -/
abbrev Path := List String

/-- The filesystem: an association list from paths to file contents, the
most recent write first, together with the list of directories created.
`fs-extra` also creates intermediate directories during a recursive copy;
no code path of the program consults those, so the copy collaborator is
modelled by its file writes alone. -/
structure FS where
  files : List (Path × String)
  dirs : List Path
deriving DecidableEq

/-- First entry of an association list at a given path, if any. -/
def lookupList : List (Path × String) → Path → Option String
  | [], _ => none
  | e :: rest, p => if e.1 = p then some e.2 else lookupList rest p

/-- Content of the file at `p`, i.e. the most recent write there. -/
def FS.lookup (fs : FS) (p : Path) : Option String :=
  lookupList fs.files p

/-- Embedding of `fs.writeFileSync(p, c)`: record the write, shadowing any
previous content at `p`. -/
def FS.write (fs : FS) (p : Path) (c : String) : FS :=
  { fs with files := (p, c) :: fs.files }

/-- Embedding of `fs.existsSync(p)`. -/
def FS.existsPath (fs : FS) (p : Path) : Bool :=
  fs.dirs.any (fun d => decide (d = p)) || fs.files.any (fun f => decide (f.1 = p))

/-- Record the directory created by a successful `fs.mkdirSync(p)`. -/
def FS.mkdir (fs : FS) (p : Path) : FS :=
  { fs with dirs := p :: fs.dirs }

/-- Embedding of `fs.copySync(src, dst)` for a tree given as relative
files: each file `(rel, c)` is written at `dst ++ rel`, in list order, later
entries shadowing earlier ones (a real tree has no duplicate paths). -/
def FS.copyAll (dst : Path) : List (Path × String) → FS → FS
  | [], fs => fs
  | f :: rest, fs => FS.copyAll dst rest (fs.write (dst ++ f.1) f.2)

/-- Joint outcome of the `curl` subprocess and `JSON.parse` inside
`getApplicationId` — an oracle, since the network is external:
`execError` when `execSync` throws, `parseError` when `JSON.parse` throws
on the response body, and `parsed response` otherwise.  A non-2xx HTTP
response still reaches `parsed` (with `curl -s` the subprocess exits 0 and
prints the error body), typically as an object with no `id` field. -/
inductive LookupOutcome where
  | execError
  | parseError
  | parsed (response : Json)

/-- Embedding of `getApplicationId`: inside a `try`, run the `curl`
request, parse the body, and return `parsedResponse.id || null`; every
thrown error is caught and turned into `null` (`none`). -/
def getApplicationId : LookupOutcome → Option Json
  | .execError => none
  | .parseError => none
  | .parsed (Json.obj fields) =>
      match lookupField fields "id" with
      | some v => if v.truthy then some v else none
      | none => none
  | .parsed _ => none

/-- The mutable process state threaded through the run: the filesystem,
the `console.log` lines in order, the working directory, and two
instrumentation flags recording whether `execSync("npm ci")` and the
identity lookup were ever invoked. -/
structure World where
  fs : FS
  out : List String
  cwd : Path
  installerInvoked : Bool
  lookupInvoked : Bool
deriving DecidableEq

/-- One `console.log(s)`. -/
def pushOut (w : World) (s : String) : World :=
  { w with out := w.out ++ [s] }

/-- A step of the plan, as in the source: a message, a zero-argument
side-effecting action (here a state transformer returning the thrown error,
if any), and the dry-run exemption flag. -/
structure Step where
  message : String
  action : World → World × Option String
  ignoreDry : Bool

/-- The bundled template (`appDir = path.join(__dirname, "../app")`): its
files as paths relative to `appDir`, and `appPackage`, the parsed fields of
its `package.json`. -/
structure Template where
  files : List (Path × String)
  package : List (String × Json)

/-- The string `` `${name} v${version}` `` built from the name and version
of the tool itself. -/
def utilityNameAndVersion (toolName toolVersion : String) : String :=
  toolName ++ " v" ++ toolVersion

/-- The banner printed before the first prompt. -/
def banner (toolName toolVersion : String) : String :=
  "This utility will walk you through creating a " ++ toolName ++
    " application.\n\nPress ENTER to use the default.\nPress ^C at any time to quit.\n\n" ++
    utilityNameAndVersion toolName toolVersion

/-- The closing summary printed on full success. -/
def doneMsg (name : String) : String :=
  "Done!\n\nStart by running:\n\t$ cd " ++ name ++ "/\n\t$ npm start"

/-- The description written into the generated manifest:
`` `Generated by ${utilityNameAndVersion}.` ``. -/
def generatedDescription (toolName toolVersion : String) : String :=
  "Generated by " ++ utilityNameAndVersion toolName toolVersion ++ "."

/-- Fields of `{ ...appPackage, name, description }`: the template manifest
with exactly its `name` and `description` fields overwritten. -/
def newPackageFields (pkg : List (String × Json)) (name description : String) :
    List (String × Json) :=
  spreadSet (spreadSet pkg "name" (Json.str name)) "description" (Json.str description)

/-- Action of the step `Creating directory '...'...`: `fs.mkdirSync(dir)`,
which throws when the path already exists. -/
def mkdirAction (dir : Path) : World → World × Option String := fun w =>
  if FS.existsPath w.fs dir then
    (w, some "EEXIST: file already exists, mkdir")
  else
    ({ w with fs := w.fs.mkdir dir }, none)

/-- Action of the step `Creating boilerplate...`:
`fs.copySync(appDir, dir)` followed by writing the fixed `.gitignore`. -/
def boilerplateAction (tpl : Template) (dir : Path) : World → World × Option String := fun w =>
  let fs1 := FS.copyAll dir tpl.files w.fs
  ({ w with fs := fs1.write (dir ++ [".gitignore"]) "node_modules/\n.env\n" }, none)

/-- Action of the step `Updating package.json...`: build
`{ ...appPackage, name, description }` and write it with
`JSON.stringify(newPackage, null, 2)` plus a trailing newline. -/
def updatePackageAction (pkg : List (String × Json)) (toolName toolVersion : String)
    (dir : Path) (name : String) : World → World × Option String := fun w =>
  let description := generatedDescription toolName toolVersion
  let newPackage := newPackageFields pkg name description
  ({ w with
      fs := w.fs.write (dir ++ ["package.json"])
        (stringifyAt 0 (Json.obj newPackage) ++ "\n") }, none)

/-- Action of the step `Writing .env...`: write the single
`DISCORD_BOT_TOKEN=<token>` line (no trailing newline). -/
def writeEnvAction (dir : Path) (token : String) : World → World × Option String := fun w =>
  ({ w with fs := w.fs.write (dir ++ [".env"]) ("DISCORD_BOT_TOKEN=" ++ token) }, none)

/-- Action of the step `Installing modules...`: `process.chdir(dir)` then
`execSync("npm ci")`; a non-zero installer exit makes `execSync` throw,
after the directory change already happened. -/
def installAction (dir : Path) (installerOk : Bool) : World → World × Option String := fun w =>
  let w1 := { w with cwd := dir, installerInvoked := true }
  if installerOk then (w1, none) else (w1, some "Command failed: npm ci")

/-- The literal fallback line of the invite-link step. -/
def fallbackMsg : String :=
  "The given bot token was invalid so no invite link was generated."

/-- JavaScript truthiness of the `string | null` result of
`getApplicationId`. -/
def truthyOpt : Option Json → Bool
  | none => false
  | some v => v.truthy

/-- Line printed by the invite-link step:
`` applicationId ? `Invite your bot: ...${applicationId}` : fallback ``. -/
def inviteMessage (applicationId : Option Json) : String :=
  if truthyOpt applicationId then
    "Invite your bot: https://discord.com/oauth2/authorize?scope=bot&client_id=" ++
      (match applicationId with
       | some v => v.jsToString
       | none => "null")
  else fallbackMsg

/-- Action of the step `Generating bot invite link...`: call
`getApplicationId(token)` and print the invite link or the fallback line;
it never throws. -/
def inviteAction (lookup : LookupOutcome) : World → World × Option String := fun w =>
  let applicationId := getApplicationId lookup
  (pushOut { w with lookupInvoked := true } (inviteMessage applicationId), none)

/-- The template files under `src/core`, i.e. the tree copied by
`fs.copySync(appDir + "/src/core", dir + "/src/core")`. -/
def updateCoreFiles (tpl : Template) : List (Path × String) :=
  tpl.files.filter (fun f => List.isPrefixOf ["src", "core"] f.1)

/-- Action of the single update step: copy the template core subtree and
the entry-point file `src/index.js` into the existing target directory,
overwriting conflicts; `fs.copySync` throws when a source is missing (and
the core copy has already happened when the second copy fails). -/
def updateAction (tpl : Template) (dir : Path) : World → World × Option String := fun w =>
  if (updateCoreFiles tpl).isEmpty then
    (w, some "ENOENT: no such file or directory, src/core")
  else
    let fs1 := FS.copyAll dir (updateCoreFiles tpl) w.fs
    match lookupList tpl.files ["src", "index.js"] with
    | none => ({ w with fs := fs1 }, some "ENOENT: no such file or directory, src/index.js")
    | some c => ({ w with fs := fs1.write (dir ++ ["src", "index.js"]) c }, none)

/-- The update plan: the single core-files step. -/
def updateSteps (tpl : Template) (dir : Path) (name : String) : List Step :=
  [ { message := "Updating core files in \x27" ++ name ++ "\x27...",
      action := updateAction tpl dir,
      ignoreDry := false } ]

/-- The create plan: six steps in source order; only the invite-link step
is exempt from dry-run. -/
def createSteps (tpl : Template) (toolName toolVersion : String) (dir : Path)
    (name token : String) (installerOk : Bool) (lookup : LookupOutcome) : List Step :=
  [ { message := "Creating directory \x27" ++ name ++ "\x27...",
      action := mkdirAction dir, ignoreDry := false },
    { message := "Creating boilerplate...",
      action := boilerplateAction tpl dir, ignoreDry := false },
    { message := "Updating package.json...",
      action := updatePackageAction tpl.package toolName toolVersion dir name,
      ignoreDry := false },
    { message := "Writing .env...",
      action := writeEnvAction dir token, ignoreDry := false },
    { message := "Installing modules...",
      action := installAction dir installerOk, ignoreDry := false },
    { message := "\nGenerating bot invite link...",
      ignoreDry := true, action := inviteAction lookup } ]

/-- Embedding of `steps.forEach(...)`: print each message, run the action
unless `isDryRun` and the step is not exempt; a thrown action error stops
the iteration, carrying the state reached so far. -/
def runSteps (isDryRun : Bool) : List Step → World → World × Option String
  | [], w => (w, none)
  | s :: rest, w =>
    let w1 := pushOut w s.message
    if s.ignoreDry || !isDryRun then
      let r := s.action w1
      match r.2 with
      | none => runSteps isDryRun rest r.1
      | some _ => r
    else
      runSteps isDryRun rest w1

/-- JavaScript truthiness of the confirm-prompt answer `update`: the
prompt yields `true`, `false`, or `undefined` when cancelled (`none`); the
source tests `!update`. -/
def jsTruthy : Option Bool → Bool
  | some b => b
  | none => false

/-- The user-controlled and environment-controlled inputs of one run:
the collected (already validated) application name, the confirm-prompt
answer (consulted only on the update path), the collected token (consulted
only on the create path), `process.argv.slice(2)`, and the oracles for the
installer exit and the identity lookup. -/
structure RunInput where
  name : String
  confirmUpdate : Option Bool
  token : String
  args : List String
  installerOk : Bool
  lookup : LookupOutcome

/-- Shared tail of the `.then` body once the plan is built: the blank
`console.log()` line, the step loop, and — only when no step threw — the
blank line, the closing summary and `process.exit(0)`. -/
def finishRun (isDryRun : Bool) (steps : List Step) (name : String) (w : World) :
    World × Option String :=
  let r := runSteps isDryRun steps (pushOut w "")
  match r.2 with
  | some _ => r
  | none => (pushOut (pushOut r.1 "") (doneMsg name), none)

/-- The body of `.then(async ({ name }) => ...)`: resolve the target
directory, branch on its existence, elicit the branch-specific input, build
the plan and run it.  The returned `Option String` is the value the body
throws, if any (`"Quitting..."` on a declined update, or a failing step
action error). -/
def mainBody (tpl : Template) (toolName toolVersion : String) (inp : RunInput)
    (w : World) : World × Option String :=
  let dir := w.cwd ++ [inp.name]
  let isDryRun := inp.args.head? == some "--dry-run"
  if FS.existsPath w.fs dir then
    if jsTruthy inp.confirmUpdate then
      finishRun isDryRun (updateSteps tpl dir inp.name) inp.name w
    else
      (pushOut w "", some "Quitting...")
  else
    finishRun isDryRun
      (createSteps tpl toolName toolVersion dir inp.name inp.token inp.installerOk inp.lookup)
      inp.name w

/-- Final observable outcome of one process invocation: the final state,
what the top-level `.catch(console.error)` printed (the caught rejection,
if any), and the process exit status. -/
structure RunResult where
  world : World
  caught : Option String
  exitCode : Nat
deriving DecidableEq

/-- The whole program: print the banner, run the `.then` body, and apply
the top-level `.catch(console.error)`.  A fulfilled chain reached
`process.exit(0)`; a rejected chain is handled by the catch callback, which
prints the error — after which the Node process, its event loop empty and
its exit code never set, also terminates with status 0. -/
def runProgram (tpl : Template) (toolName toolVersion : String) (inp : RunInput)
    (w0 : World) : RunResult :=
  let w := pushOut w0 (banner toolName toolVersion)
  let r := mainBody tpl toolName toolVersion inp w
  match r.2 with
  | none => { world := r.1, caught := none, exitCode := 0 }
  | some e => { world := r.1, caught := some e, exitCode := 0 }

/-- Verdict returned by the external `validate-npm-package-name`
collaborator for one candidate name. -/
structure NameVerdict where
  validForNewPackages : Bool
  errors : Option (List String)
  warnings : Option (List String)

/-- The rejection text built by the validation callback:
`` `Error: ${(errors || warnings).join(", ")}.` ``.  The collaborator
always supplies `errors` or `warnings` alongside an invalid verdict; the
empty-list default covers the case it never produces. -/
def nameErrorText (vd : NameVerdict) : String :=
  "Error: " ++
    String.intercalate ", " (match vd.errors with
      | some es => es
      | none => vd.warnings.getD []) ++ "."

/-- The inline validation callback of the name prompt:
`validForNewPackages || errorText` — `none` means the candidate was
accepted (`true`), `some m` is the rejection text shown to the user. -/
def nameValidate (vd : NameVerdict) : Option String :=
  if vd.validForNewPackages then none else some (nameErrorText vd)

/-- Modelled from the spec: the interactive prompt collaborator (the
`prompts` library, external to the repository) renders the name prompt with
a default (initial) value, applies the inline validation callback to each
submission, shows the returned rejection text and prompts again on
rejection, and yields the first accepted candidate.  A submission of
`none` stands for pressing ENTER, which takes the default.  The result is
the list of rejection texts shown, in order, and the accepted name (or
`none` when the submission list runs out, i.e. the user cancelled). -/
def collectName (validate : String → Option String) (dflt : String) :
    List (Option String) → List String × Option String
  | [] => ([], none)
  | a :: rest =>
    let candidate := a.getD dflt
    match validate candidate with
    | none => ([], some candidate)
    | some m =>
      let r := collectName validate dflt rest
      (m :: r.1, r.2)

/-- The default of the name prompt: `initial: appPackage.name`, the
template manifest's own declared name. -/
def appPackageName (tpl : Template) : Option String :=
  match lookupField tpl.package "name" with
  | some (Json.str s) => some s
  | _ => none

/-- The name-collection phase of the program: the collector loop driven by
the source's inline validation callback over the external validator's
verdicts, with the prompt default `initial: appPackage.name`; an empty
submission yields the default (or the empty string when the template
manifest carries no name). -/
def collectAppName (validateName : String → NameVerdict) (tpl : Template)
    (answers : List (Option String)) : List String × Option String :=
  collectName (fun s => nameValidate (validateName s))
    ((appPackageName tpl).getD "") answers

/-- A concrete npm-style validator for witnesses: it rejects exactly the
capitalized candidate `My-Bot`. -/
def npmishVerdict : String → NameVerdict := fun s =>
  if s = "My-Bot" then
    { validForNewPackages := false,
      errors := some ["name can no longer contain capital letters"],
      warnings := none }
  else
    { validForNewPackages := true, errors := none, warnings := none }

/-! ### Concrete fixtures for witnesses and the counterexample -/

/-- A small concrete template: a manifest, the entry point and one core
file. -/
def sampleTemplate : Template :=
  { files := [ (["package.json"], "\x7b \"name\": \"app\" \x7d\n"),
               (["src", "index.js"], "require(\"./core\");\n"),
               (["src", "core", "index.js"], "module.exports = \x7b\x7d;\n") ],
    package := [ ("name", Json.str "app"),
                 ("version", Json.str "1.0.0"),
                 ("description", Json.str "A Discord bot."),
                 ("scripts", Json.obj [("start", Json.str "node src/index.js")]),
                 ("dependencies", Json.obj [("discord.js", Json.str "^14.0.0")]) ] }

/-- A fresh process state over an empty filesystem. -/
def emptyWorld : World :=
  { fs := { files := [], dirs := [] }, out := [], cwd := [],
    installerInvoked := false, lookupInvoked := false }

/-- A process state in which the target directory `mybot` already exists. -/
def worldWithApp : World :=
  { emptyWorld with fs := { files := [], dirs := [["mybot"]] } }

/-- A run input that declines the update confirmation. -/
def declineInput : RunInput :=
  { name := "mybot", confirmUpdate := some false, token := "t",
    args := [], installerOk := true, lookup := .execError }

/-- A run input for a plain successful create run. -/
def createInput : RunInput :=
  { name := "mybot", confirmUpdate := none, token := "TOKEN",
    args := [], installerOk := true,
    lookup := .parsed (Json.obj [("id", Json.str "1234567890")]) }

/-! ### Helper lemmas -/

/-- Left-biased choice on options, used to describe which write a lookup
sees. -/
def firstSome {α : Type} : Option α → Option α → Option α
  | some a, _ => some a
  | none, b => b

@[simp] lemma firstSome_some {α : Type} (a : α) (b : Option α) :
    firstSome (some a) b = some a := rfl

@[simp] lemma firstSome_none {α : Type} (b : Option α) :
    firstSome none b = b := rfl

lemma firstSome_assoc {α : Type} (a b c : Option α) :
    firstSome (firstSome a b) c = firstSome a (firstSome b c) := by
  cases a <;> rfl

lemma firstSome_self_absorb {α : Type} (a b : Option α) :
    firstSome a (firstSome a b) = firstSome a b := by
  cases a <;> rfl

@[simp] lemma lookup_write_same (fs : FS) (p : Path) (c : String) :
    (fs.write p c).lookup p = some c := by
  simp [FS.write, FS.lookup, lookupList]

lemma lookup_write (fs : FS) (p q : Path) (c : String) :
    (fs.write p c).lookup q = firstSome (if p = q then some c else none) (fs.lookup q) := by
  by_cases h : p = q <;> simp [FS.write, FS.lookup, lookupList, h]

lemma lookup_write_ne (fs : FS) (p q : Path) (c : String) (h : p ≠ q) :
    (fs.write p c).lookup q = fs.lookup q := by
  simp [lookup_write, h]

/-- The write that a lookup at `p` sees among the writes `copyAll dst fl`
performs: the last entry of `fl` that lands on `p`, if any. -/
def lastWrite (dst : Path) : List (Path × String) → Path → Option String
  | [], _ => none
  | f :: rest, p =>
      firstSome (lastWrite dst rest p) (if dst ++ f.1 = p then some f.2 else none)

lemma lookup_copyAll (dst : Path) (fl : List (Path × String)) (fs : FS) (p : Path) :
    (FS.copyAll dst fl fs).lookup p = firstSome (lastWrite dst fl p) (fs.lookup p) := by
  induction fl generalizing fs with
  | nil => simp [FS.copyAll, lastWrite]
  | cons f rest ih =>
      simp only [FS.copyAll, lastWrite, ih, lookup_write, firstSome_assoc]

lemma lastWrite_eq_none (dst : Path) (fl : List (Path × String)) (p : Path)
    (h : ∀ f ∈ fl, dst ++ f.1 ≠ p) : lastWrite dst fl p = none := by
  induction fl with
  | nil => rfl
  | cons f rest ih =>
      have hf : dst ++ f.1 ≠ p := h f (List.mem_cons_self f rest)
      simp [lastWrite, hf, ih (fun g hg => h g (List.mem_cons_of_mem f hg))]

lemma lookupField_spreadSet_same (fields : List (String × Json)) (k : String) (v : Json) :
    lookupField (spreadSet fields k v) k = some v := by
  induction fields with
  | nil => simp [spreadSet, lookupField]
  | cons f rest ih =>
      by_cases h : f.1 = k
      · simp [spreadSet, h, lookupField]
      · simp [spreadSet, h, lookupField, ih]

lemma lookupField_spreadSet_other (fields : List (String × Json)) (k : String) (v : Json)
    (k' : String) (h : k' ≠ k) :
    lookupField (spreadSet fields k v) k' = lookupField fields k' := by
  have hk : ¬ (k = k') := fun he => h he.symm
  induction fields with
  | nil => simp [spreadSet, lookupField, hk]
  | cons f rest ih =>
      by_cases hf : f.1 = k
      · simp only [spreadSet, if_pos hf, lookupField]
        rw [if_neg hk, if_neg (show ¬ f.1 = k' by rw [hf]; exact hk)]
      · simp only [spreadSet, if_neg hf, lookupField, ih]

lemma nameValidate_eq_none (vd : NameVerdict) :
    nameValidate vd = none ↔ vd.validForNewPackages = true := by
  by_cases h : vd.validForNewPackages <;> simp [nameValidate, h]

lemma collectName_sound (validate : String → Option String) (dflt : String) :
    ∀ (answers : List (Option String)) (n : String),
      (collectName validate dflt answers).2 = some n → validate n = none := by
  intro answers
  induction answers with
  | nil =>
      intro n h
      simp [collectName] at h
  | cons a rest ih =>
      intro n h
      rcases hv : validate (a.getD dflt) with _ | m
      · simp only [collectName, hv] at h
        simp at h
        subst h
        exact hv
      · simp only [collectName, hv] at h
        exact ih n h

/-! ### Claim theorems -/

/-- C6: for every credential input, `getApplicationId` never raises — a
transport error, a parse error, a non-object response, or an absent `id`
field all yield `null` — and the invite-link step never throws, printing
the literal fallback line whenever the lookup yielded `null`, so a lookup
failure never blocks completion of the run. -/
theorem lookup_never_raises_and_invite_falls_back (o : LookupOutcome) (w : World) :
    getApplicationId .execError = none ∧
    getApplicationId .parseError = none ∧
    (∀ fields, lookupField fields "id" = none →
      getApplicationId (.parsed (Json.obj fields)) = none) ∧
    (∀ j : Json, (∀ fields, j ≠ Json.obj fields) → getApplicationId (.parsed j) = none) ∧
    (inviteAction o w).2 = none ∧
    (getApplicationId o = none →
      (inviteAction o w).1.out = w.out ++ [fallbackMsg]) := by
  refine ⟨rfl, rfl, ?_, ?_, rfl, ?_⟩
  · intro fields h
    simp [getApplicationId, h]
  · intro j hj
    cases j with
    | obj fields => exact absurd rfl (hj fields)
    | null => rfl
    | bool b => rfl
    | num n => rfl
    | str s => rfl
    | arr items => rfl
  · intro h
    simp [inviteAction, pushOut, inviteMessage, h, truthyOpt]

/-- Witness for C6 at a concrete unauthorized-credential response: the
parsed error body has no `id` field, the lookup yields `null`, and the
step prints exactly the fallback line. -/
theorem lookup_never_raises_and_invite_falls_back_witness :
    getApplicationId
        (.parsed (Json.obj [("message", Json.str "401: Unauthorized"),
                            ("code", Json.num 0)])) = none ∧
    (inviteAction
        (.parsed (Json.obj [("message", Json.str "401: Unauthorized"),
                            ("code", Json.num 0)])) emptyWorld).1.out = [fallbackMsg] :=
  ⟨(lookup_never_raises_and_invite_falls_back
      (.parsed (Json.obj [("message", Json.str "401: Unauthorized"),
                          ("code", Json.num 0)])) emptyWorld).2.2.1 _ rfl,
   (lookup_never_raises_and_invite_falls_back
      (.parsed (Json.obj [("message", Json.str "401: Unauthorized"),
                          ("code", Json.num 0)])) emptyWorld).2.2.2.2.2 rfl⟩

/-- C10: a well-formed response whose `id` field is falsy (empty string,
`0`, `false`, `null`) is coalesced to `null` by `|| null`, making it
indistinguishable from a failed lookup, and the invite-link step prints the
invalid-token fallback line in that case too. -/
theorem falsy_id_indistinguishable_from_failure
    (fields : List (String × Json)) (v : Json) (w : World)
    (h1 : lookupField fields "id" = some v) (h2 : v.truthy = false) :
    getApplicationId (.parsed (Json.obj fields)) = none ∧
    getApplicationId (.parsed (Json.obj fields)) = getApplicationId .execError ∧
    (inviteAction (.parsed (Json.obj fields)) w).1.out = w.out ++ [fallbackMsg] := by
  have hid : getApplicationId (.parsed (Json.obj fields)) = none := by
    simp [getApplicationId, h1, h2]
  refine ⟨hid, hid.trans rfl, ?_⟩
  simp [inviteAction, pushOut, inviteMessage, hid, truthyOpt]

/-- Witness for C10 at the concrete response `{"id": ""}`. -/
theorem falsy_id_indistinguishable_from_failure_witness :
    getApplicationId (.parsed (Json.obj [("id", Json.str "")])) = none ∧
    (inviteAction (.parsed (Json.obj [("id", Json.str "")])) emptyWorld).1.out =
      [fallbackMsg] :=
  ⟨(falsy_id_indistinguishable_from_failure [("id", Json.str "")] (Json.str "")
      emptyWorld rfl rfl).1,
   (falsy_id_indistinguishable_from_failure [("id", Json.str "")] (Json.str "")
      emptyWorld rfl rfl).2.2⟩

/-- C4: the manifest-rewrite step never throws; it writes exactly the
template manifest with its `name` and `description` fields overwritten,
serialized by the two-space pretty printer and terminated by a trailing
newline, and every field other than `name` and `description` is looked up
unchanged in the written manifest. -/
theorem manifest_rewrite_preserves_other_fields
    (pkg : List (String × Json)) (toolName toolVersion : String) (dir : Path)
    (name : String) (w : World) (k : String)
    (hk1 : k ≠ "name") (hk2 : k ≠ "description") :
    (updatePackageAction pkg toolName toolVersion dir name w).2 = none ∧
    (updatePackageAction pkg toolName toolVersion dir name w).1.fs =
      w.fs.write (dir ++ ["package.json"])
        (stringifyAt 0 (Json.obj (newPackageFields pkg name
          (generatedDescription toolName toolVersion))) ++ "\n") ∧
    lookupField (newPackageFields pkg name (generatedDescription toolName toolVersion)) k =
      lookupField pkg k ∧
    lookupField (newPackageFields pkg name (generatedDescription toolName toolVersion))
      "name" = some (Json.str name) ∧
    lookupField (newPackageFields pkg name (generatedDescription toolName toolVersion))
      "description" = some (Json.str (generatedDescription toolName toolVersion)) ∧
    (∃ body, (updatePackageAction pkg toolName toolVersion dir name w).1.fs.lookup
        (dir ++ ["package.json"]) = some (body ++ "\n")) := by
  refine ⟨rfl, rfl, ?_, ?_, ?_, ?_⟩
  · rw [newPackageFields, lookupField_spreadSet_other _ _ _ _ hk2,
      lookupField_spreadSet_other _ _ _ _ hk1]
  · rw [newPackageFields,
      lookupField_spreadSet_other _ _ _ _ (by decide : "name" ≠ "description"),
      lookupField_spreadSet_same]
  · rw [newPackageFields, lookupField_spreadSet_same]
  · exact ⟨stringifyAt 0 (Json.obj (newPackageFields pkg name
      (generatedDescription toolName toolVersion))), by simp [updatePackageAction]⟩

/-- Witness for C4 on the concrete sample manifest, checking the untouched
`version` field and the rewritten `name`. -/
theorem manifest_rewrite_preserves_other_fields_witness :
    lookupField (newPackageFields sampleTemplate.package "mybot"
      (generatedDescription "create-discord-bot" "1.0.0")) "version" =
        some (Json.str "1.0.0") ∧
    lookupField (newPackageFields sampleTemplate.package "mybot"
      (generatedDescription "create-discord-bot" "1.0.0")) "name" =
        some (Json.str "mybot") :=
  ⟨((manifest_rewrite_preserves_other_fields sampleTemplate.package "create-discord-bot"
      "1.0.0" [] "mybot" emptyWorld "version" (by decide) (by decide)).2.2.1).trans rfl,
   (manifest_rewrite_preserves_other_fields sampleTemplate.package "create-discord-bot"
      "1.0.0" [] "mybot" emptyWorld "version" (by decide) (by decide)).2.2.2.1⟩

/-- C9: the update plan is one single step; when the template carries a
core subtree and the entry-point file, its action succeeds, touches only
the copies of the core files and of `src/index.js` inside the target
directory (every other path reads back unchanged), prints nothing itself,
and running it a second time leaves every path with exactly the content the
first run gave it. -/
theorem update_plan_single_step_idempotent
    (tpl : Template) (dir : Path) (name : String) (w : World) (c : String)
    (hcore : (updateCoreFiles tpl).isEmpty = false)
    (hidx : lookupList tpl.files ["src", "index.js"] = some c) :
    (updateSteps tpl dir name).length = 1 ∧
    (updateAction tpl dir w).2 = none ∧
    (updateAction tpl dir w).1.out = w.out ∧
    (∀ p : Path, (∀ f ∈ updateCoreFiles tpl, dir ++ f.1 ≠ p) →
        dir ++ ["src", "index.js"] ≠ p →
        (updateAction tpl dir w).1.fs.lookup p = w.fs.lookup p) ∧
    (updateAction tpl dir ((updateAction tpl dir w).1)).2 = none ∧
    (∀ p : Path,
        (updateAction tpl dir ((updateAction tpl dir w).1)).1.fs.lookup p =
          (updateAction tpl dir w).1.fs.lookup p) := by
  refine ⟨rfl, ?_, ?_, ?_, ?_, ?_⟩
  · simp [updateAction, hcore, hidx]
  · simp [updateAction, hcore, hidx]
  · intro p hfr hidxp
    simp only [updateAction, hcore, Bool.false_eq_true, if_false, hidx]
    rw [lookup_write_ne _ _ _ _ hidxp, lookup_copyAll,
      lastWrite_eq_none _ _ _ hfr, firstSome_none]
  · simp [updateAction, hcore, hidx]
  · intro p
    simp only [updateAction, hcore, Bool.false_eq_true, if_false, hidx]
    simp only [lookup_write, lookup_copyAll]
    cases hI : (if dir ++ ["src", "index.js"] = p then some c else none) with
    | some a => simp [firstSome]
    | none =>
        simp only [firstSome_none]
        exact firstSome_self_absorb _ _

/-- Witness for C9 on the concrete sample template: the second run of the
update action reproduces the first runs content at the copied entry point,
and an unrelated existing file is untouched. -/
theorem update_plan_single_step_idempotent_witness :
    (updateSteps sampleTemplate ["mybot"] "mybot").length = 1 ∧
    (updateAction sampleTemplate ["mybot"]
        ((updateAction sampleTemplate ["mybot"] worldWithApp).1)).1.fs.lookup
        (["mybot"] ++ ["src", "index.js"]) =
      (updateAction sampleTemplate ["mybot"] worldWithApp).1.fs.lookup
        (["mybot"] ++ ["src", "index.js"]) ∧
    (updateAction sampleTemplate ["mybot"] worldWithApp).1.fs.lookup
        (["mybot"] ++ [".env"]) = worldWithApp.fs.lookup (["mybot"] ++ [".env"]) :=
  ⟨(update_plan_single_step_idempotent sampleTemplate ["mybot"] "mybot" worldWithApp
      "require(\"./core\");\n" rfl rfl).1,
   (update_plan_single_step_idempotent sampleTemplate ["mybot"] "mybot" worldWithApp
      "require(\"./core\");\n" rfl rfl).2.2.2.2.2 (["mybot"] ++ ["src", "index.js"]),
   (update_plan_single_step_idempotent sampleTemplate ["mybot"] "mybot" worldWithApp
      "require(\"./core\");\n" rfl rfl).2.2.2.1 (["mybot"] ++ [".env"])
      (by decide) (by decide)⟩

/-- C1 counterexample: a run in which the target directory exists and the
user declines the update confirmation does abort — the thrown
`"Quitting..."` reaches the top-level catch handler — yet the process
terminates with exit status 0, not a non-zero status, because
`.catch(console.error)` handles the rejection. -/
theorem declined_run_exits_zero_counterexample :
    (runProgram sampleTemplate "create-discord-bot" "1.0.0" declineInput
        worldWithApp).caught = some "Quitting..." ∧
    (runProgram sampleTemplate "create-discord-bot" "1.0.0" declineInput
        worldWithApp).exitCode = 0 :=
  ⟨rfl, rfl⟩

/-- C1 amended: every run terminates with exit status 0 — on full success
through the explicit `process.exit(0)`, and on an abort or a step failure
because the rejection is handled by the top-level `.catch(console.error)`,
which prints the thrown error instead of letting it crash the process. -/
theorem exit_status_always_zero (tpl : Template) (toolName toolVersion : String)
    (inp : RunInput) (w : World) :
    (runProgram tpl toolName toolVersion inp w).exitCode = 0 ∧
    (runProgram tpl toolName toolVersion inp w).caught =
      (mainBody tpl toolName toolVersion inp (pushOut w (banner toolName toolVersion))).2 := by
  unfold runProgram
  rcases h : (mainBody tpl toolName toolVersion inp (pushOut w (banner toolName toolVersion))).2
    with _ | e <;> simp [h]

/-- C2: with an existing target path and any confirmation answer other
than an explicit `true`, the run throws `"Quitting..."` and leaves the
filesystem — files and directories — exactly as it was: nothing is
created, deleted or written. -/
theorem declined_update_mutates_nothing
    (tpl : Template) (toolName toolVersion : String) (inp : RunInput) (w : World)
    (hex : FS.existsPath w.fs (w.cwd ++ [inp.name]) = true)
    (hdecl : inp.confirmUpdate ≠ some true) :
    (runProgram tpl toolName toolVersion inp w).world.fs = w.fs ∧
    (runProgram tpl toolName toolVersion inp w).caught = some "Quitting..." := by
  have htr : jsTruthy inp.confirmUpdate = false := by
    cases h : inp.confirmUpdate with
    | none => rfl
    | some b =>
        cases b with
        | false => rfl
        | true => exact absurd h hdecl
  constructor <;> simp [runProgram, mainBody, pushOut, hex, htr]

/-- Witness for C2: the concrete declining run over an existing `mybot`
directory leaves its filesystem untouched. -/
theorem declined_update_mutates_nothing_witness :
    (runProgram sampleTemplate "create-discord-bot" "1.0.0" declineInput
        worldWithApp).world.fs = worldWithApp.fs ∧
    (runProgram sampleTemplate "create-discord-bot" "1.0.0" declineInput
        worldWithApp).caught = some "Quitting..." :=
  declined_update_mutates_nothing sampleTemplate "create-discord-bot" "1.0.0"
    declineInput worldWithApp (by decide) (by decide)

/-- C3: a non-dry-run create run over a non-existing target path that
reaches completion produces, inside the target directory, the fixed
two-entry ignore file, the one-line secrets file holding the supplied
credential, and a manifest serialized from the template fields with `name`
set to the supplied name and `description` set to the generator string. -/
theorem create_plan_produces_files
    (tpl : Template) (toolName toolVersion : String) (inp : RunInput) (w : World)
    (hex : FS.existsPath w.fs (w.cwd ++ [inp.name]) = false)
    (hdry : (inp.args.head? == some "--dry-run") = false)
    (hinst : inp.installerOk = true) :
    (runProgram tpl toolName toolVersion inp w).caught = none ∧
    (runProgram tpl toolName toolVersion inp w).world.fs.lookup
        (w.cwd ++ [inp.name] ++ [".gitignore"]) = some "node_modules/\n.env\n" ∧
    (runProgram tpl toolName toolVersion inp w).world.fs.lookup
        (w.cwd ++ [inp.name] ++ [".env"]) = some ("DISCORD_BOT_TOKEN=" ++ inp.token) ∧
    (runProgram tpl toolName toolVersion inp w).world.fs.lookup
        (w.cwd ++ [inp.name] ++ ["package.json"]) =
      some (stringifyAt 0 (Json.obj (newPackageFields tpl.package inp.name
        (generatedDescription toolName toolVersion))) ++ "\n") ∧
    lookupField (newPackageFields tpl.package inp.name
        (generatedDescription toolName toolVersion)) "name" = some (Json.str inp.name) ∧
    lookupField (newPackageFields tpl.package inp.name
        (generatedDescription toolName toolVersion)) "description" =
      some (Json.str (generatedDescription toolName toolVersion)) := by
  refine ⟨?_, ?_, ?_, ?_, ?_, ?_⟩ <;>
    (try simp only [runProgram, mainBody, finishRun, createSteps, updateSteps, runSteps,
      pushOut, jsTruthy, mkdirAction, boilerplateAction, updatePackageAction,
      writeEnvAction, installAction, inviteAction, hex, hdry, hinst,
      Bool.false_eq_true, if_false, Bool.not_false, Bool.false_or, Bool.or_true,
      if_true, Bool.or_false, Bool.true_or])
  · simp [FS.lookup, FS.write, lookupList]
  · simp [FS.lookup, FS.write, lookupList]
  · simp [FS.lookup, FS.write, lookupList]
  · rw [newPackageFields,
      lookupField_spreadSet_other _ _ _ _ (by decide : "name" ≠ "description"),
      lookupField_spreadSet_same]
  · rw [newPackageFields, lookupField_spreadSet_same]

/-- Witness for C3: the concrete successful create run writes the three
files with exactly the expected contents. -/
theorem create_plan_produces_files_witness :
    (runProgram sampleTemplate "create-discord-bot" "1.0.0" createInput
        emptyWorld).world.fs.lookup (["mybot", ".env"]) =
      some "DISCORD_BOT_TOKEN=TOKEN" ∧
    (runProgram sampleTemplate "create-discord-bot" "1.0.0" createInput
        emptyWorld).world.fs.lookup (["mybot", ".gitignore"]) =
      some "node_modules/\n.env\n" :=
  ⟨(create_plan_produces_files sampleTemplate "create-discord-bot" "1.0.0" createInput
      emptyWorld rfl rfl rfl).2.2.1,
   (create_plan_produces_files sampleTemplate "create-discord-bot" "1.0.0" createInput
      emptyWorld rfl rfl rfl).2.1⟩

/-- C5: with `--dry-run` as the first argument, a create run prints every
step message in order and completes, but executes no non-exempt action —
the filesystem, the working directory and the installer flag are untouched
— while the exempt invite-link step does execute, flipping the lookup flag
and printing its result or fallback line. -/
theorem dry_run_skips_all_but_invite
    (tpl : Template) (toolName toolVersion : String) (inp : RunInput) (w : World)
    (hex : FS.existsPath w.fs (w.cwd ++ [inp.name]) = false)
    (hdry : inp.args.head? = some "--dry-run") :
    (runProgram tpl toolName toolVersion inp w).world.fs = w.fs ∧
    (runProgram tpl toolName toolVersion inp w).world.installerInvoked =
      w.installerInvoked ∧
    (runProgram tpl toolName toolVersion inp w).world.cwd = w.cwd ∧
    (runProgram tpl toolName toolVersion inp w).world.lookupInvoked = true ∧
    (runProgram tpl toolName toolVersion inp w).caught = none ∧
    (runProgram tpl toolName toolVersion inp w).exitCode = 0 ∧
    (runProgram tpl toolName toolVersion inp w).world.out =
      w.out ++ [banner toolName toolVersion, "",
        "Creating directory \x27" ++ inp.name ++ "\x27...",
        "Creating boilerplate...", "Updating package.json...", "Writing .env...",
        "Installing modules...", "\nGenerating bot invite link...",
        inviteMessage (getApplicationId inp.lookup), "",
        doneMsg inp.name] := by
  refine ⟨?_, ?_, ?_, ?_, ?_, ?_, ?_⟩ <;>
    simp [runProgram, mainBody, finishRun, createSteps, updateSteps, runSteps,
      pushOut, jsTruthy, mkdirAction, boilerplateAction, updatePackageAction,
      writeEnvAction, installAction, inviteAction, hex, hdry]

/-- Witness for C5: the concrete dry-run create run leaves the empty
filesystem empty, never invokes the installer, and still prints the invite
link for the parsed response. -/
theorem dry_run_skips_all_but_invite_witness :
    (runProgram sampleTemplate "create-discord-bot" "1.0.0"
        { createInput with args := ["--dry-run"] } emptyWorld).world.fs = emptyWorld.fs ∧
    (runProgram sampleTemplate "create-discord-bot" "1.0.0"
        { createInput with args := ["--dry-run"] } emptyWorld).world.installerInvoked =
      emptyWorld.installerInvoked ∧
    (runProgram sampleTemplate "create-discord-bot" "1.0.0"
        { createInput with args := ["--dry-run"] } emptyWorld).world.lookupInvoked = true :=
  ⟨(dry_run_skips_all_but_invite sampleTemplate "create-discord-bot" "1.0.0"
      { createInput with args := ["--dry-run"] } emptyWorld rfl rfl).1,
   (dry_run_skips_all_but_invite sampleTemplate "create-discord-bot" "1.0.0"
      { createInput with args := ["--dry-run"] } emptyWorld rfl rfl).2.1,
   (dry_run_skips_all_but_invite sampleTemplate "create-discord-bot" "1.0.0"
      { createInput with args := ["--dry-run"] } emptyWorld rfl rfl).2.2.2.1⟩

/-- C7: a step action that throws stops the iteration — `runSteps` returns
that very action result, running nothing after it — and in particular a
create run whose installer exits non-zero ends with the installer error,
never reaches the invite-link step (the lookup flag stays untouched), and
prints no message beyond `Installing modules...`. -/
theorem installer_failure_stops_plan
    (tpl : Template) (toolName toolVersion : String) (inp : RunInput) (w : World)
    (hex : FS.existsPath w.fs (w.cwd ++ [inp.name]) = false)
    (hdry : (inp.args.head? == some "--dry-run") = false)
    (hinst : inp.installerOk = false) :
    (∀ (dry : Bool) (s : Step) (rest : List Step) (w' : World) (e : String),
        (s.ignoreDry || !dry) = true →
        (s.action (pushOut w' s.message)).2 = some e →
        runSteps dry (s :: rest) w' = s.action (pushOut w' s.message)) ∧
    (runProgram tpl toolName toolVersion inp w).caught = some "Command failed: npm ci" ∧
    (runProgram tpl toolName toolVersion inp w).world.lookupInvoked = w.lookupInvoked ∧
    (runProgram tpl toolName toolVersion inp w).world.out =
      w.out ++ [banner toolName toolVersion, "",
        "Creating directory \x27" ++ inp.name ++ "\x27...",
        "Creating boilerplate...", "Updating package.json...", "Writing .env...",
        "Installing modules..."] := by
  refine ⟨?_, ?_, ?_, ?_⟩
  · intro dry s rest w' e hguard haction
    simp only [runSteps, hguard, if_true]
    rcases hr : s.action (pushOut w' s.message) with ⟨w2, r2⟩
    rw [hr] at haction
    simp only at haction
    simp [haction]
  all_goals
    simp [runProgram, mainBody, finishRun, createSteps, updateSteps, runSteps,
      pushOut, jsTruthy, mkdirAction, boilerplateAction, updatePackageAction,
      writeEnvAction, installAction, inviteAction, hex, hdry, hinst]

/-- Witness for C7: the concrete create run with a failing installer stops
at the installer step and never flips the lookup flag. -/
theorem installer_failure_stops_plan_witness :
    (runProgram sampleTemplate "create-discord-bot" "1.0.0"
        { createInput with installerOk := false } emptyWorld).caught =
      some "Command failed: npm ci" ∧
    (runProgram sampleTemplate "create-discord-bot" "1.0.0"
        { createInput with installerOk := false } emptyWorld).world.lookupInvoked =
      emptyWorld.lookupInvoked :=
  ⟨(installer_failure_stops_plan sampleTemplate "create-discord-bot" "1.0.0"
      { createInput with installerOk := false } emptyWorld rfl rfl rfl).2.1,
   (installer_failure_stops_plan sampleTemplate "create-discord-bot" "1.0.0"
      { createInput with installerOk := false } emptyWorld rfl rfl rfl).2.2.1⟩

/-- C8: the name collector never yields a candidate the validator rejects;
a rejected submission makes it show exactly the callbacks error-or-warning
text and continue with the remaining submissions; and an empty submission
takes the prompt default, the template manifests own declared name. -/
theorem name_collector_never_accepts_invalid
    (validateName : String → NameVerdict) (tpl : Template)
    (answers : List (Option String)) :
    (∀ n, (collectAppName validateName tpl answers).2 = some n →
        (validateName n).validForNewPackages = true) ∧
    (∀ a rest, answers = a :: rest →
        (validateName (a.getD ((appPackageName tpl).getD ""))).validForNewPackages =
          false →
        (collectAppName validateName tpl answers).1.head? =
          some (nameErrorText (validateName (a.getD ((appPackageName tpl).getD "")))) ∧
        (collectAppName validateName tpl answers).2 =
          (collectAppName validateName tpl rest).2) ∧
    (∀ pn rest, appPackageName tpl = some pn → answers = none :: rest →
        (validateName pn).validForNewPackages = true →
        (collectAppName validateName tpl answers).2 = some pn) := by
  refine ⟨?_, ?_, ?_⟩
  · intro n h
    have hs := collectName_sound (fun s => nameValidate (validateName s))
      ((appPackageName tpl).getD "") answers n h
    simp only [nameValidate_eq_none] at hs
    exact hs
  · intro a rest ha hv
    subst ha
    constructor <;> simp [collectAppName, collectName, nameValidate, hv]
  · intro pn rest hpn ha hv
    subst ha
    simp [collectAppName, collectName, nameValidate, hpn, hv]

/-- Witness for C8 with the concrete capitalization-rejecting validator:
the capitalized first submission is rejected with its error text, the
second submission is accepted and is valid, and an empty submission over
the sample template yields its declared name `app`. -/
theorem name_collector_never_accepts_invalid_witness :
    (npmishVerdict "my-bot").validForNewPackages = true ∧
    (collectAppName npmishVerdict sampleTemplate
        [some "My-Bot", some "my-bot"]).1.head? =
      some "Error: name can no longer contain capital letters." ∧
    (collectAppName npmishVerdict sampleTemplate [none]).2 = some "app" :=
  ⟨(name_collector_never_accepts_invalid npmishVerdict sampleTemplate
      [some "My-Bot", some "my-bot"]).1 "my-bot" rfl,
   ((name_collector_never_accepts_invalid npmishVerdict sampleTemplate
      [some "My-Bot", some "my-bot"]).2.1 (some "My-Bot") [some "my-bot"] rfl rfl).1,
   (name_collector_never_accepts_invalid npmishVerdict sampleTemplate [none]).2.2
      "app" [] rfl rfl rfl⟩

end CreateDiscordBot
